import Mathlib

/-!
Shallow embedding of the audiopus safety layer (a validated wrapper in
front of the native Opus codec engine) and proofs about it.

Modelling conventions:
- Rust byte buffers (`&[u8]`, `Vec<u8>`) are `List Nat`; the byte values are
  never computed upon by the wrapper, only lengths and identity matter.
- Sample buffers (`&[i16]`, `&[f32]`) are `List Int` respectively lists over
  an abstract sample type; again only pointers and lengths cross the FFI.
- Machine integers are `Int`/`Nat` with explicit wrap-around where the Rust
  code performs an `as` cast.
- The native engine is opaque: native calls appear as function parameters
  (for encode/decode/pad, whose internals are out of scope) or as an explicit
  state-passing model of the ctl dispatcher where a claim is about the
  get/set control protocol.
- Fallible Rust functions returning `Result<T, Error>` become
  `Except Error T`.
-/

/-! ## Native status and request constants (opus_defines.h via audiopus_sys) -/

def OPUS_OK : Int := 0
def OPUS_BAD_ARG : Int := -1
def OPUS_BUFFER_TOO_SMALL : Int := -2
def OPUS_INTERNAL_ERROR : Int := -3
def OPUS_INVALID_PACKET : Int := -4
def OPUS_UNIMPLEMENTED : Int := -5
def OPUS_INVALID_STATE : Int := -6
def OPUS_ALLOC_FAIL : Int := -7

def OPUS_AUTO : Int := -1000
def OPUS_BITRATE_MAX : Int := -1

def OPUS_SET_VBR_REQUEST : Int := 4006
def OPUS_GET_VBR_REQUEST : Int := 4007
def OPUS_SET_INBAND_FEC_REQUEST : Int := 4012
def OPUS_GET_INBAND_FEC_REQUEST : Int := 4013
def OPUS_SET_DTX_REQUEST : Int := 4016
def OPUS_GET_DTX_REQUEST : Int := 4017
def OPUS_SET_VBR_CONSTRAINT_REQUEST : Int := 4020
def OPUS_GET_VBR_CONSTRAINT_REQUEST : Int := 4021
def OPUS_SET_GAIN_REQUEST : Int := 4034
def OPUS_GET_GAIN_REQUEST : Int := 4045
def OPUS_SET_PREDICTION_DISABLED_REQUEST : Int := 4042
def OPUS_GET_PREDICTION_DISABLED_REQUEST : Int := 4043
def OPUS_SET_PHASE_INVERSION_DISABLED_REQUEST : Int := 4046
def OPUS_GET_PHASE_INVERSION_DISABLED_REQUEST : Int := 4047

/-- `std::i32::MAX` as a `Nat`. -/
def INT32_MAX : Nat := 2147483647

/-- The Rust cast `usize as i32`: truncate to 32 bits, reinterpret signed. -/
def usize_as_i32 (n : Nat) : Int :=
  if n % 2 ^ 32 < 2 ^ 31 then ((n % 2 ^ 32 : Nat) : Int)
  else ((n % 2 ^ 32 : Nat) : Int) - 2 ^ 32

/-- The Rust cast `i32 as usize` on a 64-bit target (wraps mod `2^64`). -/
def i32_as_usize (v : Int) : Nat :=
  (v % 2 ^ 64).toNat

/-! ## src/error.rs -/

inductive ErrorCode where
  | BadArgument
  | BufferTooSmall
  | InternalError
  | InvalidPacket
  | Unimplemented
  | InvalidState
  | AllocFail
  | Unknown
deriving DecidableEq, Repr

inductive Error where
  | InvalidApplication
  | InvalidBandwidth (v : Int)
  | InvalidBitrate (v : Int)
  | InvalidSignal (v : Int)
  | InvalidComplexity (v : Int)
  | InvalidSampleRate (v : Int)
  | InvalidChannels (v : Int)
  | Opus (c : ErrorCode)
  | EmptyPacket
  | SignalsTooLarge
  | PacketTooLarge
  | MappingExpectedLen (n : Nat)
deriving DecidableEq, Repr

/-- `impl From<i32> for ErrorCode` in src/error.rs. -/
def ErrorCode.from_i32 (number : Int) : ErrorCode :=
  if number = OPUS_BAD_ARG then ErrorCode.BadArgument
  else if number = OPUS_BUFFER_TOO_SMALL then ErrorCode.BufferTooSmall
  else if number = OPUS_INTERNAL_ERROR then ErrorCode.InternalError
  else if number = OPUS_INVALID_PACKET then ErrorCode.InvalidPacket
  else if number = OPUS_UNIMPLEMENTED then ErrorCode.Unimplemented
  else if number = OPUS_INVALID_STATE then ErrorCode.InvalidState
  else if number = OPUS_ALLOC_FAIL then ErrorCode.AllocFail
  else ErrorCode.Unknown

/-- `impl From<ErrorCode> for Error` in src/error.rs. -/
def Error.from_error_code (error_code : ErrorCode) : Error :=
  Error.Opus error_code

/-- `try_map_opus_error` in src/error.rs. -/
def try_map_opus_error (ffi_return_value : Int) : Except Error Int :=
  if ffi_return_value < 0 then
    Except.error (Error.from_error_code (ErrorCode.from_i32 ffi_return_value))
  else
    Except.ok ffi_return_value

/-! ## src/packet.rs -/

/-- `packet_len_check` in src/packet.rs. -/
def packet_len_check (packet_buffer : List Nat) : Except Error Int :=
  if packet_buffer.isEmpty then Except.error Error.EmptyPacket
  else if packet_buffer.length > INT32_MAX then Except.error Error.PacketTooLarge
  else Except.ok (usize_as_i32 packet_buffer.length)

/-- `Packet` in src/packet.rs: a non-owning view; the view is the buffer. -/
structure Packet where
  buf : List Nat
deriving DecidableEq, Repr

/-- `Packet::i32_len`: unchecked cast, safe by the construction invariant. -/
def Packet.i32_len (p : Packet) : Int :=
  usize_as_i32 p.buf.length

/-- `impl TryInto<Packet> for &[u8]` in src/packet.rs. -/
def Packet.try_from_slice (s : List Nat) : Except Error Packet :=
  (packet_len_check s).map (fun _ => Packet.mk s)

/-- `MutPacket` in src/packet.rs. -/
structure MutPacket where
  buf : List Nat
deriving DecidableEq, Repr

/-- `MutPacket::i32_len`: re-runs `packet_len_check` on the underlying
buffer at every call. -/
def MutPacket.i32_len (p : MutPacket) : Except Error Int :=
  packet_len_check p.buf

/-- `impl TryInto<MutPacket> for &mut [u8]` in src/packet.rs. -/
def MutPacket.try_from_slice (s : List Nat) : Except Error MutPacket :=
  (packet_len_check s).map (fun _ => MutPacket.mk s)

/-! ## Domain enums from src/lib.rs -/

inductive Channels where
  | Auto
  | Mono
  | Stereo
deriving DecidableEq, Repr

/-- `impl From<Channels> for i32` (the `#[repr(i32)]` discriminants). -/
def Channels.to_i32 : Channels → Int
  | Channels.Auto => OPUS_AUTO
  | Channels.Mono => 1
  | Channels.Stereo => 2

inductive SampleRate where
  | Hz8000
  | Hz12000
  | Hz16000
  | Hz24000
  | Hz48000
deriving DecidableEq, Repr

inductive Application where
  | Voip
  | Audio
  | LowDelay
deriving DecidableEq, Repr

inductive Bitrate where
  | BitsPerSecond (i : Int)
  | Max
  | Auto
deriving DecidableEq, Repr

/-- `impl TryFrom<i32> for Bitrate` in src/lib.rs. -/
def Bitrate.try_from (value : Int) : Except Error Bitrate :=
  if value = OPUS_AUTO then Except.ok Bitrate.Auto
  else if value = OPUS_BITRATE_MAX then Except.ok Bitrate.Max
  else if 0 < value then Except.ok (Bitrate.BitsPerSecond value)
  else Except.error (Error.InvalidBandwidth value)

/-! ## MutSignals from src/lib.rs -/

/-- `MutSignals<'a, T>`: a non-owning mutable sample view. -/
structure MutSignals (T : Type) where
  buf : List T
deriving DecidableEq, Repr

/-- `impl TryFrom<&mut [T]> for MutSignals` in src/lib.rs. -/
def MutSignals.try_from {T : Type} (value : List T) : Except Error (MutSignals T) :=
  if value.length > INT32_MAX then Except.error Error.SignalsTooLarge
  else Except.ok (MutSignals.mk value)

/-- `MutSignals::i32_len`: unchecked cast, safe by construction. -/
def MutSignals.i32_len {T : Type} (s : MutSignals T) : Int :=
  usize_as_i32 s.buf.length

/-! ## src/coder/encoder.rs and src/coder/decoder.rs: construction

The native `opus_encoder_create` / `opus_decoder_create` calls return an
opaque pointer together with a status code written through an out
parameter.  The engine is opaque, so a constructor takes the pair the
native call produced; only the pointer's nullness is observable to the
wrapper. -/

structure CreateResult where
  isNull : Bool
  code : Int
deriving DecidableEq, Repr

/-- `Encoder` in src/coder/encoder.rs: the native pointer (of which only
nullness is modelled) and the stored channel count. -/
structure Encoder where
  ptrIsNull : Bool
  channels : Channels
deriving DecidableEq, Repr

/-- `Decoder` in src/coder/decoder.rs. -/
structure Decoder where
  ptrIsNull : Bool
  channels : Channels
deriving DecidableEq, Repr

/-- `Encoder::new`: `r` is what `ffi::opus_encoder_create` produced for the
given arguments.  Mirrors `if opus_code == ffi::OPUS_OK || !pointer.is_null()`. -/
def Encoder.new (r : CreateResult) (_sample_rate : SampleRate) (channels : Channels)
    (_mode : Application) : Except Error Encoder :=
  if r.code = OPUS_OK ∨ r.isNull = false then
    Except.ok (Encoder.mk r.isNull channels)
  else
    Except.error (Error.from_error_code (ErrorCode.from_i32 r.code))

/-- `Decoder::new`: `r` is what `ffi::opus_decoder_create` produced.
Mirrors `if opus_code == ffi::OPUS_OK || !pointer.is_null()`. -/
def Decoder.new (r : CreateResult) (_sample_rate : SampleRate)
    (channels : Channels) : Except Error Decoder :=
  if r.code = OPUS_OK ∨ r.isNull = false then
    Except.ok (Decoder.mk r.isNull channels)
  else
    Except.error (Error.from_error_code (ErrorCode.from_i32 r.code))

/-! ## Encode (src/coder/encoder.rs)

`opus_encode` receives the raw input pointer (here: the input list), the
per-channel sample count and the output capacity, and returns the packet
length or a negative status; its internals are opaque, so it is a function
parameter. -/

/-- `Encoder::encode`: `input` is the raw `&[i16]` slice, `output` the raw
`&mut [u8]` slice (only its length crosses the FFI).  No validated-buffer
conversion occurs; lengths are passed through the `as i32` cast. -/
def Encoder.encode (native : List Int → Int → Int → Int) (enc : Encoder)
    (input : List Int) (output : List Nat) : Except Error Nat :=
  (try_map_opus_error
      (native input
        (Int.tdiv (usize_as_i32 input.length) enc.channels.to_i32)
        (usize_as_i32 output.length))).map i32_as_usize

/-- `Encoder::encode_float`: identical shape over `f32` samples (abstract
sample type `F`). -/
def Encoder.encode_float {F : Type} (native : List F → Int → Int → Int) (enc : Encoder)
    (input : List F) (output : List Nat) : Except Error Nat :=
  (try_map_opus_error
      (native input
        (Int.tdiv (usize_as_i32 input.length) enc.channels.to_i32)
        (usize_as_i32 output.length))).map i32_as_usize

/-! ## Decode (src/coder/decoder.rs)

`opus_decode` receives the packet pointer (null signalled by `none`), the
packet length, the per-channel output capacity and the fec flag. -/

/-- `Decoder::decode`: mirrors the `match` on `input` producing
`(null, 0)` for `None` and `(packet pointer, checked length)` otherwise. -/
def Decoder.decode (native : Option (List Nat) → Int → Int → Int → Int)
    (dec : Decoder) (input : Option Packet) (output : MutSignals Int)
    (fec : Bool) : Except Error Nat :=
  let input_pair : Option (List Nat) × Int :=
    match input with
    | some value => (some value.buf, value.i32_len)
    | none => (none, 0)
  (try_map_opus_error
      (native input_pair.1 input_pair.2
        (Int.tdiv output.i32_len dec.channels.to_i32)
        (if fec then 1 else 0))).map i32_as_usize

/-- `Decoder::decode_float`: identical shape over `f32` output samples. -/
def Decoder.decode_float {F : Type} (native : Option (List Nat) → Int → Int → Int → Int)
    (dec : Decoder) (input : Option Packet) (output : MutSignals F)
    (fec : Bool) : Except Error Nat :=
  let input_pair : Option (List Nat) × Int :=
    match input with
    | some value => (some value.buf, value.i32_len)
    | none => (none, 0)
  (try_map_opus_error
      (native input_pair.1 input_pair.2
        (Int.tdiv output.i32_len dec.channels.to_i32)
        (if fec then 1 else 0))).map i32_as_usize

/-! ## The control protocol (src/coder/encoder.rs, src/coder/decoder.rs)

`ffi::opus_encoder_ctl` / `ffi::opus_decoder_ctl` are variadic C calls: the
wrapper passes either an `&mut i32` out-pointer (get direction) or an `i32`
value (set direction), and the engine decides from the opcode how to read
the vararg.  A pointer passed where the engine expects an `i32` value is
read as the (truncated) pointer address. -/

/-- The single vararg the wrapper passes to a ctl call. -/
inductive CtlArg where
  | outPtr (addr : Nat)
  | val (v : Int)
deriving DecidableEq, Repr

/-- How the native engine reads the vararg when the opcode makes it expect
an `opus_int32` value: a pointer is reinterpreted as its truncated address. -/
def CtlArg.as_i32 : CtlArg → Int
  | CtlArg.outPtr addr => usize_as_i32 addr
  | CtlArg.val v => v

def bool_to_i32 (b : Bool) : Int := if b then 1 else 0

/-- Native encoder settings state reached through `opus_encoder_ctl`. -/
structure EncCtlState where
  inbandFec : Bool
  vbr : Bool
  vbrConstraint : Bool
  dtx : Bool
  predictionDisabled : Bool
  phaseInversionDisabled : Bool
deriving DecidableEq, Repr

/-- Native decoder settings state reached through `opus_decoder_ctl`. -/
structure DecCtlState where
  gain : Int
  phaseInversionDisabled : Bool
deriving DecidableEq, Repr

/-- Outcome of a native ctl call: successor state, status code, and the
value written through the out-pointer (if any). -/
structure CtlOutcome (S : Type) where
  state : S
  status : Int
  written : Option Int
deriving DecidableEq, Repr

/-- Helper for the native boolean-setting dispatch: a set request accepts
only 0 or 1 and rejects everything else with `OPUS_BAD_ARG`, leaving the
state unchanged. -/
def ctl_set_bool {S : Type} (st : S) (update : S → Bool → S) (arg : CtlArg) :
    CtlOutcome S :=
  let v := arg.as_i32
  if v = 0 ∨ v = 1 then CtlOutcome.mk (update st (v = 1)) OPUS_OK none
  else CtlOutcome.mk st OPUS_BAD_ARG none

/-- Helper for the native get dispatch: writes the current value through
the out-pointer; a missing pointer (value vararg) is rejected. -/
def ctl_get_value {S : Type} (st : S) (value : Int) (arg : CtlArg) :
    CtlOutcome S :=
  match arg with
  | CtlArg.outPtr _ => CtlOutcome.mk st OPUS_OK (some value)
  | CtlArg.val _ => CtlOutcome.mk st OPUS_BAD_ARG none

/-- Modelled from the spec: the native `opus_encoder_ctl` dispatcher
(external engine, not under src/).  Per §4.3 each boolean setting has a
get and a set opcode; out-of-domain set values are rejected with
bad-argument and leave prior state unchanged; unknown opcodes are
unimplemented. -/
def opus_encoder_ctl (st : EncCtlState) (request : Int) (arg : CtlArg) :
    CtlOutcome EncCtlState :=
  if request = OPUS_SET_INBAND_FEC_REQUEST then
    ctl_set_bool st (fun s b => { s with inbandFec := b }) arg
  else if request = OPUS_GET_INBAND_FEC_REQUEST then
    ctl_get_value st (bool_to_i32 st.inbandFec) arg
  else if request = OPUS_SET_VBR_REQUEST then
    ctl_set_bool st (fun s b => { s with vbr := b }) arg
  else if request = OPUS_GET_VBR_REQUEST then
    ctl_get_value st (bool_to_i32 st.vbr) arg
  else if request = OPUS_SET_VBR_CONSTRAINT_REQUEST then
    ctl_set_bool st (fun s b => { s with vbrConstraint := b }) arg
  else if request = OPUS_GET_VBR_CONSTRAINT_REQUEST then
    ctl_get_value st (bool_to_i32 st.vbrConstraint) arg
  else if request = OPUS_SET_DTX_REQUEST then
    ctl_set_bool st (fun s b => { s with dtx := b }) arg
  else if request = OPUS_GET_DTX_REQUEST then
    ctl_get_value st (bool_to_i32 st.dtx) arg
  else if request = OPUS_SET_PREDICTION_DISABLED_REQUEST then
    ctl_set_bool st (fun s b => { s with predictionDisabled := b }) arg
  else if request = OPUS_GET_PREDICTION_DISABLED_REQUEST then
    ctl_get_value st (bool_to_i32 st.predictionDisabled) arg
  else if request = OPUS_SET_PHASE_INVERSION_DISABLED_REQUEST then
    ctl_set_bool st (fun s b => { s with phaseInversionDisabled := b }) arg
  else if request = OPUS_GET_PHASE_INVERSION_DISABLED_REQUEST then
    ctl_get_value st (bool_to_i32 st.phaseInversionDisabled) arg
  else
    CtlOutcome.mk st OPUS_UNIMPLEMENTED none

/-- Modelled from the spec: the native `opus_decoder_ctl` dispatcher
(external engine, not under src/).  Gain has domain [-32768, 32767]
(§4.4, §8); a rejected set surfaces bad-argument and leaves prior state
unchanged (§4.3). -/
def opus_decoder_ctl (st : DecCtlState) (request : Int) (arg : CtlArg) :
    CtlOutcome DecCtlState :=
  if request = OPUS_SET_GAIN_REQUEST then
    let v := arg.as_i32
    if -32768 ≤ v ∧ v ≤ 32767 then CtlOutcome.mk { st with gain := v } OPUS_OK none
    else CtlOutcome.mk st OPUS_BAD_ARG none
  else if request = OPUS_GET_GAIN_REQUEST then
    ctl_get_value st st.gain arg
  else if request = OPUS_SET_PHASE_INVERSION_DISABLED_REQUEST then
    ctl_set_bool st (fun s b => { s with phaseInversionDisabled := b }) arg
  else if request = OPUS_GET_PHASE_INVERSION_DISABLED_REQUEST then
    ctl_get_value st (bool_to_i32 st.phaseInversionDisabled) arg
  else
    CtlOutcome.mk st OPUS_UNIMPLEMENTED none

/-! ### The two ctl primitives of each wrapper (from the source)

`encoder_ctl_request` declares `let mut value = 0;`, passes `&mut value`
(its stack address `addr`), maps the status through the error taxonomy and
returns `value`. -/

/-- `Encoder::encoder_ctl_request` in src/coder/encoder.rs. -/
def encoder_ctl_request (st : EncCtlState) (addr : Nat) (request : Int) :
    EncCtlState × Except Error Int :=
  let r := opus_encoder_ctl st request (CtlArg.outPtr addr)
  match try_map_opus_error r.status with
  | Except.error e => (r.state, Except.error e)
  | Except.ok _ => (r.state, Except.ok (r.written.getD 0))

/-- `Encoder::set_encoder_ctl_request` in src/coder/encoder.rs. -/
def set_encoder_ctl_request (st : EncCtlState) (request : Int) (value : Int) :
    EncCtlState × Except Error Unit :=
  let r := opus_encoder_ctl st request (CtlArg.val value)
  match try_map_opus_error r.status with
  | Except.error e => (r.state, Except.error e)
  | Except.ok _ => (r.state, Except.ok ())

/-- `Decoder::decoder_ctl_request` in src/coder/decoder.rs. -/
def decoder_ctl_request (st : DecCtlState) (addr : Nat) (request : Int) :
    DecCtlState × Except Error Int :=
  let r := opus_decoder_ctl st request (CtlArg.outPtr addr)
  match try_map_opus_error r.status with
  | Except.error e => (r.state, Except.error e)
  | Except.ok _ => (r.state, Except.ok (r.written.getD 0))

/-- `Decoder::set_decoder_ctl_request` in src/coder/decoder.rs. -/
def set_decoder_ctl_request (st : DecCtlState) (request : Int) (value : Int) :
    DecCtlState × Except Error Unit :=
  let r := opus_decoder_ctl st request (CtlArg.val value)
  match try_map_opus_error r.status with
  | Except.error e => (r.state, Except.error e)
  | Except.ok _ => (r.state, Except.ok ())

/-! ### Per-setting accessors (thin wrappers from the source) -/

/-- `Encoder::inband_fec`: get via `OPUS_GET_INBAND_FEC_REQUEST`,
`.map(|n| n == 1)`. -/
def Encoder.inband_fec (st : EncCtlState) (addr : Nat) :
    EncCtlState × Except Error Bool :=
  let r := encoder_ctl_request st addr OPUS_GET_INBAND_FEC_REQUEST
  (r.1, r.2.map (fun n => n = 1))

/-- `Encoder::set_inband_fec`. -/
def Encoder.set_inband_fec (st : EncCtlState) (enable : Bool) :
    EncCtlState × Except Error Unit :=
  set_encoder_ctl_request st OPUS_SET_INBAND_FEC_REQUEST (if enable then 1 else 0)

/-- `Encoder::vbr`: get via `OPUS_GET_VBR_REQUEST`. -/
def Encoder.vbr (st : EncCtlState) (addr : Nat) :
    EncCtlState × Except Error Bool :=
  let r := encoder_ctl_request st addr OPUS_GET_VBR_REQUEST
  (r.1, r.2.map (fun b => b = 1))

/-- `Encoder::set_vbr`. -/
def Encoder.set_vbr (st : EncCtlState) (enable : Bool) :
    EncCtlState × Except Error Unit :=
  set_encoder_ctl_request st OPUS_SET_VBR_REQUEST (if enable then 1 else 0)

/-- `Encoder::vbr_constraint`: get via `OPUS_GET_VBR_CONSTRAINT_REQUEST`. -/
def Encoder.vbr_constraint (st : EncCtlState) (addr : Nat) :
    EncCtlState × Except Error Bool :=
  let r := encoder_ctl_request st addr OPUS_GET_VBR_CONSTRAINT_REQUEST
  (r.1, r.2.map (fun b => b = 1))

/-- `Encoder::set_vbr_constraint`. -/
def Encoder.set_vbr_constraint (st : EncCtlState) (enable : Bool) :
    EncCtlState × Except Error Unit :=
  set_encoder_ctl_request st OPUS_SET_VBR_CONSTRAINT_REQUEST (if enable then 1 else 0)

/-- `Encoder::dtx`: get via `OPUS_GET_DTX_REQUEST`. -/
def Encoder.dtx (st : EncCtlState) (addr : Nat) :
    EncCtlState × Except Error Bool :=
  let r := encoder_ctl_request st addr OPUS_GET_DTX_REQUEST
  (r.1, r.2.map (fun n => n = 1))

/-- `Encoder::set_dtx`. -/
def Encoder.set_dtx (st : EncCtlState) (dtx : Bool) :
    EncCtlState × Except Error Unit :=
  set_encoder_ctl_request st OPUS_SET_DTX_REQUEST (if dtx then 1 else 0)

/-- `Encoder::prediction_disabled`: get via
`OPUS_GET_PREDICTION_DISABLED_REQUEST`. -/
def Encoder.prediction_disabled (st : EncCtlState) (addr : Nat) :
    EncCtlState × Except Error Bool :=
  let r := encoder_ctl_request st addr OPUS_GET_PREDICTION_DISABLED_REQUEST
  (r.1, r.2.map (fun n => n = 1))

/-- `Encoder::set_prediction_disabled`. -/
def Encoder.set_prediction_disabled (st : EncCtlState) (prediction_disabled : Bool) :
    EncCtlState × Except Error Unit :=
  set_encoder_ctl_request st OPUS_SET_PREDICTION_DISABLED_REQUEST
    (if prediction_disabled then 1 else 0)

/-- `Encoder::phase_inversion_disabled` in src/coder/encoder.rs, verbatim:
the getter issues `OPUS_SET_PHASE_INVERSION_DISABLED_REQUEST` (the set
opcode) through the get primitive. -/
def Encoder.phase_inversion_disabled (st : EncCtlState) (addr : Nat) :
    EncCtlState × Except Error Bool :=
  let r := encoder_ctl_request st addr OPUS_SET_PHASE_INVERSION_DISABLED_REQUEST
  (r.1, r.2.map (fun b => b = 1))

/-- `Encoder::set_phase_inversion_disabled`. -/
def Encoder.set_phase_inversion_disabled (st : EncCtlState) (disabled : Bool) :
    EncCtlState × Except Error Unit :=
  set_encoder_ctl_request st OPUS_SET_PHASE_INVERSION_DISABLED_REQUEST
    (if disabled then 1 else 0)

/-- `Decoder::phase_inversion_disabled` in src/coder/decoder.rs: get via
`OPUS_GET_PHASE_INVERSION_DISABLED_REQUEST`. -/
def Decoder.phase_inversion_disabled (st : DecCtlState) (addr : Nat) :
    DecCtlState × Except Error Bool :=
  let r := decoder_ctl_request st addr OPUS_GET_PHASE_INVERSION_DISABLED_REQUEST
  (r.1, r.2.map (fun b => b = 1))

/-- `Decoder::set_phase_inversion_disabled`. -/
def Decoder.set_phase_inversion_disabled (st : DecCtlState) (disabled : Bool) :
    DecCtlState × Except Error Unit :=
  set_decoder_ctl_request st OPUS_SET_PHASE_INVERSION_DISABLED_REQUEST
    (if disabled then 1 else 0)

/-- `Decoder::gain`: get via `OPUS_GET_GAIN_REQUEST`. -/
def Decoder.gain (st : DecCtlState) (addr : Nat) :
    DecCtlState × Except Error Int :=
  decoder_ctl_request st addr OPUS_GET_GAIN_REQUEST

/-- `Decoder::set_gain`: set via `OPUS_SET_GAIN_REQUEST`. -/
def Decoder.set_gain (st : DecCtlState) (gain : Int) :
    DecCtlState × Except Error Unit :=
  set_decoder_ctl_request st OPUS_SET_GAIN_REQUEST gain

/-! ## src/softclip.rs -/

/-- `SoftClip` over an abstract `f32` sample type `F`: carried channel
count and two scalars of inter-call filter memory. -/
structure SoftClip (F : Type) where
  channels : Channels
  memory : F × F
deriving DecidableEq, Repr

/-- `SoftClip::apply`: validates the buffer as `MutSignals`, then invokes
the (void) native `opus_pcm_soft_clip`, which updates buffer and memory in
place; the call itself always succeeds.  `clip` is the opaque native
function (input buffer, per-channel count, channel count, memory). -/
def SoftClip.apply {F : Type}
    (clip : List F → Int → Int → F × F → List F × (F × F))
    (sc : SoftClip F) (signals : List F) :
    Except Error (SoftClip F × List F) :=
  match MutSignals.try_from signals with
  | Except.error e => Except.error e
  | Except.ok ms =>
    let r := clip ms.buf (Int.tdiv ms.i32_len sc.channels.to_i32)
      sc.channels.to_i32 sc.memory
    Except.ok (SoftClip.mk sc.channels r.2, r.1)

/-! ## src/repacketizer.rs: the stateless pad/unpad helpers -/

/-- `packet_pad`: converts to `MutPacket`, re-checks the length via
`i32_len()?`, then calls the native `opus_packet_pad`. -/
def packet_pad (native : List Nat → Int → Int → Int) (data : List Nat)
    (new_len : Int) : Except Error Unit := do
  let d ← MutPacket.try_from_slice data
  let len ← d.i32_len
  let _ ← try_map_opus_error (native d.buf len new_len)
  pure ()

/-- `packet_unpad`: converts to `MutPacket`, re-checks the length, then
calls the native `opus_packet_unpad`. -/
def packet_unpad (native : List Nat → Int → Int) (data : List Nat) :
    Except Error Unit := do
  let d ← MutPacket.try_from_slice data
  let len ← d.i32_len
  let _ ← try_map_opus_error (native d.buf len)
  pure ()

/-- `multistream_packet_pad`. -/
def multistream_packet_pad (native : List Nat → Int → Int → Int → Int)
    (data : List Nat) (new_len : Nat) (nb_streams : Nat) : Except Error Unit := do
  let d ← MutPacket.try_from_slice data
  let len ← d.i32_len
  let _ ← try_map_opus_error
    (native d.buf len (usize_as_i32 new_len) (usize_as_i32 nb_streams))
  pure ()

/-- `multistream_packet_unpad`. -/
def multistream_packet_unpad (native : List Nat → Int → Int → Int)
    (data : List Nat) (nb_streams : Nat) : Except Error Unit := do
  let d ← MutPacket.try_from_slice data
  let len ← d.i32_len
  let _ ← try_map_opus_error (native d.buf len (usize_as_i32 nb_streams))
  pure ()

/-- `Repacketizer::repacketizer_out`: converts the output buffer to
`MutPacket` (construction-time validation only; the native call receives
`max_len`, not the re-checked length). -/
def repacketizer_out (native : List Nat → Int → Int) (data_out : List Nat)
    (max_len : Int) : Except Error Unit := do
  let d ← MutPacket.try_from_slice data_out
  let _ ← try_map_opus_error (native d.buf max_len)
  pure ()

/-- `Repacketizer::repacketizer_out_range`. -/
def repacketizer_out_range (native : Int → Int → List Nat → Int → Int)
    (begin_index : Int) (end_index : Int) (data_out : List Nat)
    (max_len : Int) : Except Error Unit := do
  let d ← MutPacket.try_from_slice data_out
  let _ ← try_map_opus_error (native begin_index end_index d.buf max_len)
  pure ()

/-! ## Helper lemmas -/

/-- The `usize as i32` cast is the identity below `2^31`. -/
theorem usize_as_i32_small {n : Nat} (h : n < 2 ^ 31) : usize_as_i32 n = (n : Int) := by
  unfold usize_as_i32
  have hm : n % 2 ^ 32 = n := Nat.mod_eq_of_lt (lt_trans h (by norm_num))
  rw [hm, if_pos h]

/-! ## Claim theorems -/

/-- Claim C4: every native status code `v` maps through `try_map_opus_error`
to `Ok v` when non-negative and to `Err (Error::Opus ec)` when negative,
where `ec` is the documented `ErrorCode` for the seven known codes and
`Unknown` for any other negative value; every `ErrorCode` wraps into the
single `Error::Opus` variant. -/
theorem try_map_opus_error_taxonomy (a b c : Int)
    (ha : 0 ≤ a) (hb : b < 0) (hc : c ≤ -8) :
    try_map_opus_error a = Except.ok a
    ∧ try_map_opus_error b = Except.error (Error.Opus (ErrorCode.from_i32 b))
    ∧ ErrorCode.from_i32 (-1) = ErrorCode.BadArgument
    ∧ ErrorCode.from_i32 (-2) = ErrorCode.BufferTooSmall
    ∧ ErrorCode.from_i32 (-3) = ErrorCode.InternalError
    ∧ ErrorCode.from_i32 (-4) = ErrorCode.InvalidPacket
    ∧ ErrorCode.from_i32 (-5) = ErrorCode.Unimplemented
    ∧ ErrorCode.from_i32 (-6) = ErrorCode.InvalidState
    ∧ ErrorCode.from_i32 (-7) = ErrorCode.AllocFail
    ∧ ErrorCode.from_i32 c = ErrorCode.Unknown
    ∧ (∀ ec : ErrorCode, Error.from_error_code ec = Error.Opus ec) := by
  refine ⟨?_, ?_, by decide, by decide, by decide, by decide, by decide, by decide,
    by decide, ?_, fun ec => rfl⟩
  · simp [try_map_opus_error, not_lt.mpr ha]
  · simp [try_map_opus_error, hb, Error.from_error_code]
  · unfold ErrorCode.from_i32 OPUS_BAD_ARG OPUS_BUFFER_TOO_SMALL OPUS_INTERNAL_ERROR
      OPUS_INVALID_PACKET OPUS_UNIMPLEMENTED OPUS_INVALID_STATE OPUS_ALLOC_FAIL
    rw [if_neg (by omega), if_neg (by omega), if_neg (by omega), if_neg (by omega),
      if_neg (by omega), if_neg (by omega), if_neg (by omega)]

theorem try_map_opus_error_taxonomy_witness :
    try_map_opus_error 5 = Except.ok 5
    ∧ try_map_opus_error (-3) = Except.error (Error.Opus (ErrorCode.from_i32 (-3)))
    ∧ ErrorCode.from_i32 (-8) = ErrorCode.Unknown := by
  have h := try_map_opus_error_taxonomy 5 (-3) (-8) (by decide) (by decide) (by decide)
  exact ⟨h.1, h.2.1, h.2.2.2.2.2.2.2.2.2.1⟩

/-- Claim C10: any `i32` that is neither `OPUS_AUTO` nor `OPUS_BITRATE_MAX`
nor strictly positive converts to `Err (Error::InvalidBandwidth value))`,
and the conversion never produces `Error::InvalidBitrate`. -/
theorem bitrate_try_from_invalid_bandwidth (v : Int)
    (h1 : v ≠ OPUS_AUTO) (h2 : v ≠ OPUS_BITRATE_MAX) (h3 : ¬0 < v) :
    Bitrate.try_from v = Except.error (Error.InvalidBandwidth v)
    ∧ (∀ w r : Int, Bitrate.try_from w ≠ Except.error (Error.InvalidBitrate r)) := by
  constructor
  · simp [Bitrate.try_from, h1, h2, h3]
  · intro w r
    unfold Bitrate.try_from
    split
    · simp
    · split
      · simp
      · split
        · simp
        · simp

theorem bitrate_try_from_invalid_bandwidth_witness :
    Bitrate.try_from 0 = Except.error (Error.InvalidBandwidth 0) :=
  (bitrate_try_from_invalid_bandwidth 0 (by decide) (by decide) (by decide)).1

/-- Claim C5: a byte buffer of length 0 fails `Packet` construction with
`EmptyPacket`; one longer than `INT32_MAX` fails with `PacketTooLarge`;
otherwise construction succeeds with a view over the very same buffer
(no copy, no truncation) whose 32-bit length equals the buffer length. -/
theorem packet_construction_exact (s t : List Nat)
    (h1 : s ≠ []) (h2 : s.length ≤ INT32_MAX) (h3 : t.length > INT32_MAX) :
    Packet.try_from_slice s = Except.ok (Packet.mk s)
    ∧ (Packet.mk s).buf = s
    ∧ (Packet.mk s).i32_len = (s.length : Int)
    ∧ Packet.try_from_slice [] = Except.error Error.EmptyPacket
    ∧ Packet.try_from_slice t = Except.error Error.PacketTooLarge := by
  have hlen : s.length < 2 ^ 31 := by
    unfold INT32_MAX at h2; omega
  refine ⟨?_, rfl, ?_, rfl, ?_⟩
  · simp [Packet.try_from_slice, packet_len_check, h1, not_lt.mpr h2, Except.map]
  · simpa [Packet.i32_len] using usize_as_i32_small hlen
  · unfold Packet.try_from_slice packet_len_check
    cases t with
    | nil => exact absurd h3 (by decide)
    | cons a l =>
      rw [show (a :: l).isEmpty = false from rfl, if_neg (by simp), if_pos h3]
      rfl

theorem packet_construction_exact_witness :
    Packet.try_from_slice [42] = Except.ok (Packet.mk [42])
    ∧ (Packet.mk [42]).i32_len = 1
    ∧ Packet.try_from_slice (0 :: List.replicate INT32_MAX 0)
        = Except.error Error.PacketTooLarge := by
  have h := packet_construction_exact [42] (0 :: List.replicate INT32_MAX 0)
    (by decide) (by decide)
    (by rw [List.length_cons, List.length_replicate]; exact Nat.lt_succ_self INT32_MAX)
  exact ⟨h.1, h.2.2.1, h.2.2.2.2⟩

/-- Shared helper: the length check rejects the empty buffer. -/
theorem packet_len_check_nil : packet_len_check [] = Except.error Error.EmptyPacket := rfl

/-- Shared helper: the length check rejects a buffer of `INT32_MAX + 1` bytes. -/
theorem packet_len_check_oversize :
    packet_len_check (0 :: List.replicate INT32_MAX 0) = Except.error Error.PacketTooLarge := by
  have hlen2 : (0 :: List.replicate INT32_MAX (0 : Nat)).length = INT32_MAX + 1 := by
    rw [List.length_cons, List.length_replicate]
  unfold packet_len_check
  rw [show (0 :: List.replicate INT32_MAX (0 : Nat)).isEmpty = false from rfl, hlen2,
    if_neg (by simp), if_pos (Nat.lt_succ_self INT32_MAX)]

/-- Shared helper: `MutPacket` conversion rejects the oversized buffer. -/
theorem mut_packet_try_from_slice_oversize :
    MutPacket.try_from_slice (0 :: List.replicate INT32_MAX 0)
      = Except.error Error.PacketTooLarge := by
  unfold MutPacket.try_from_slice
  rw [packet_len_check_oversize]
  rfl

/-- Claim C6: `MutPacket::i32_len` re-derives the checked length from the
underlying buffer on every call (it equals a fresh `packet_len_check` of
whatever the buffer currently is, so an empty buffer yields `EmptyPacket`
and an oversized one `PacketTooLarge` at the point of access), and every
operation consuming a `MutPacket` (`packet_pad`, `packet_unpad`, the
multistream variants, repacketizer out) propagates those validation
errors for such buffers. -/
theorem mut_packet_revalidation (b : List Nat) :
    MutPacket.i32_len (MutPacket.mk b) = packet_len_check b
    ∧ MutPacket.i32_len (MutPacket.mk []) = Except.error Error.EmptyPacket
    ∧ MutPacket.i32_len (MutPacket.mk (0 :: List.replicate INT32_MAX 0))
        = Except.error Error.PacketTooLarge
    ∧ (∀ native new_len, packet_pad native [] new_len = Except.error Error.EmptyPacket)
    ∧ (∀ native, packet_unpad native [] = Except.error Error.EmptyPacket)
    ∧ (∀ native nl ns, multistream_packet_pad native [] nl ns
        = Except.error Error.EmptyPacket)
    ∧ (∀ native ns, multistream_packet_unpad native [] ns
        = Except.error Error.EmptyPacket)
    ∧ (∀ native ml, repacketizer_out native [] ml = Except.error Error.EmptyPacket)
    ∧ (∀ native bi ei ml, repacketizer_out_range native bi ei [] ml
        = Except.error Error.EmptyPacket)
    ∧ (∀ native new_len, packet_pad native (0 :: List.replicate INT32_MAX 0) new_len
        = Except.error Error.PacketTooLarge)
    ∧ (∀ native, packet_unpad native (0 :: List.replicate INT32_MAX 0)
        = Except.error Error.PacketTooLarge)
    ∧ (∀ native nl ns, multistream_packet_pad native (0 :: List.replicate INT32_MAX 0) nl ns
        = Except.error Error.PacketTooLarge)
    ∧ (∀ native ns, multistream_packet_unpad native (0 :: List.replicate INT32_MAX 0) ns
        = Except.error Error.PacketTooLarge)
    ∧ (∀ native ml, repacketizer_out native (0 :: List.replicate INT32_MAX 0) ml
        = Except.error Error.PacketTooLarge)
    ∧ (∀ native bi ei ml, repacketizer_out_range native bi ei
        (0 :: List.replicate INT32_MAX 0) ml = Except.error Error.PacketTooLarge) := by
  refine ⟨rfl, rfl, packet_len_check_oversize, fun native new_len => rfl, fun native => rfl,
    fun native nl ns => rfl, fun native ns => rfl, fun native ml => rfl,
    fun native bi ei ml => rfl, ?_, ?_, ?_, ?_, ?_, ?_⟩
  · intro native new_len
    unfold packet_pad
    rw [mut_packet_try_from_slice_oversize]
    rfl
  · intro native
    unfold packet_unpad
    rw [mut_packet_try_from_slice_oversize]
    rfl
  · intro native nl ns
    unfold multistream_packet_pad
    rw [mut_packet_try_from_slice_oversize]
    rfl
  · intro native ns
    unfold multistream_packet_unpad
    rw [mut_packet_try_from_slice_oversize]
    rfl
  · intro native ml
    unfold repacketizer_out
    rw [mut_packet_try_from_slice_oversize]
    rfl
  · intro native bi ei ml
    unfold repacketizer_out_range
    rw [mut_packet_try_from_slice_oversize]
    rfl

/-- Claim C9: `SoftClip::apply` succeeds on every sample buffer of length
at most `INT32_MAX` (the empty buffer included); the only possible failure
is the `SignalsTooLarge` validation error from the `MutSignals`
conversion, raised before the native call. -/
theorem softclip_apply_total {F : Type}
    (clip : List F → Int → Int → F × F → List F × (F × F))
    (sc : SoftClip F) (s t : List F)
    (hs : s.length ≤ INT32_MAX) (ht : t.length > INT32_MAX) :
    (∃ r, SoftClip.apply clip sc s = Except.ok r)
    ∧ SoftClip.apply clip sc t = Except.error Error.SignalsTooLarge := by
  constructor
  · have heq : SoftClip.apply clip sc s =
        Except.ok
          (SoftClip.mk sc.channels
            (clip s (Int.tdiv (usize_as_i32 s.length) sc.channels.to_i32)
              sc.channels.to_i32 sc.memory).2,
          (clip s (Int.tdiv (usize_as_i32 s.length) sc.channels.to_i32)
            sc.channels.to_i32 sc.memory).1) := by
      unfold SoftClip.apply MutSignals.try_from
      rw [if_neg (not_lt.mpr hs)]
      rfl
    exact ⟨_, heq⟩
  · unfold SoftClip.apply MutSignals.try_from
    rw [if_pos ht]

theorem softclip_apply_total_witness :
    (∃ r, SoftClip.apply (fun b _ _ m => (b, m))
        (SoftClip.mk Channels.Stereo ((0 : Int), 0)) [] = Except.ok r)
    ∧ SoftClip.apply (fun b _ _ m => (b, m))
        (SoftClip.mk Channels.Stereo ((0 : Int), 0))
        (0 :: List.replicate INT32_MAX 0)
      = Except.error Error.SignalsTooLarge :=
  softclip_apply_total (fun b _ _ m => (b, m))
    (SoftClip.mk Channels.Stereo ((0 : Int), 0)) [] (0 :: List.replicate INT32_MAX 0)
    (by simp)
    (by rw [List.length_cons, List.length_replicate]; exact Nat.lt_succ_self INT32_MAX)

/-- Claim C8: `Decoder::decode` / `decode_float` with `input = None` hand
the native decode call an explicit null packet pointer and zero length
(packet-loss concealment) instead of failing, and with `input = Some p`
they hand it `p`'s pointer and checked 32-bit length; in both cases the
result is the native status mapped through the taxonomy, never a local
validation error. -/
theorem decode_packet_loss_null {F : Type}
    (native nativeF : Option (List Nat) → Int → Int → Int → Int)
    (dec : Decoder) (output : MutSignals Int) (outputF : MutSignals F)
    (fec : Bool) (p : Packet) :
    Decoder.decode native dec none output fec
      = (try_map_opus_error (native none 0
          (Int.tdiv output.i32_len dec.channels.to_i32)
          (if fec then 1 else 0))).map i32_as_usize
    ∧ Decoder.decode native dec (some p) output fec
      = (try_map_opus_error (native (some p.buf) p.i32_len
          (Int.tdiv output.i32_len dec.channels.to_i32)
          (if fec then 1 else 0))).map i32_as_usize
    ∧ Decoder.decode_float nativeF dec none outputF fec
      = (try_map_opus_error (nativeF none 0
          (Int.tdiv outputF.i32_len dec.channels.to_i32)
          (if fec then 1 else 0))).map i32_as_usize
    ∧ Decoder.decode_float nativeF dec (some p) outputF fec
      = (try_map_opus_error (nativeF (some p.buf) p.i32_len
          (Int.tdiv outputF.i32_len dec.channels.to_i32)
          (if fec then 1 else 0))).map i32_as_usize
    ∧ ((∃ n, Decoder.decode native dec none output fec = Except.ok n)
        ∨ (∃ c, Decoder.decode native dec none output fec
            = Except.error (Error.Opus c))) := by
  refine ⟨rfl, rfl, rfl, rfl, ?_⟩
  have heq : Decoder.decode native dec none output fec
      = (try_map_opus_error (native none 0
          (Int.tdiv output.i32_len dec.channels.to_i32)
          (if fec then 1 else 0))).map i32_as_usize := rfl
  by_cases h : native none 0 (Int.tdiv output.i32_len dec.channels.to_i32)
      (if fec then 1 else 0) < 0
  · right
    refine ⟨ErrorCode.from_i32 (native none 0
      (Int.tdiv output.i32_len dec.channels.to_i32) (if fec then 1 else 0)), ?_⟩
    rw [heq]
    unfold try_map_opus_error
    rw [if_pos h]
    rfl
  · left
    refine ⟨i32_as_usize (native none 0
      (Int.tdiv output.i32_len dec.channels.to_i32) (if fec then 1 else 0)), ?_⟩
    rw [heq]
    unfold try_map_opus_error
    rw [if_neg h]
    rfl

/-- Shared helper: the `usize as i32` cast of `2^31` wraps to `-2^31`. -/
theorem usize_as_i32_pow31 : usize_as_i32 (2 ^ 31) = -(2 ^ 31 : Int) := by
  unfold usize_as_i32
  norm_num

/-- Shared helper: a taxonomy-mapped native result is `Ok` or `Error::Opus`,
never a local validation error. -/
theorem try_map_shape (x : Int) :
    (∃ n, (try_map_opus_error x).map i32_as_usize = Except.ok n)
    ∨ (∃ c, (try_map_opus_error x).map i32_as_usize
        = Except.error (Error.Opus c)) := by
  unfold try_map_opus_error
  by_cases h : x < 0
  · right
    exact ⟨_, by rw [if_pos h]; rfl⟩
  · left
    exact ⟨_, by rw [if_neg h]; rfl⟩

/-- Claim C1 counterexample: a sample buffer of length `2^31 > INT32_MAX`
given to `Encoder::encode` is not rejected by any validated-buffer
conversion and does reach the native engine: with an engine returning 7
the call yields `Ok 7`, and with an engine echoing its per-channel sample
count the call yields the mapped status of `-2^31` (the wrapped cast of
the oversized length), i.e. `Err(Opus(Unknown))` — never
`Err(SignalsTooLarge)`. -/
theorem encode_bypasses_validation_cex :
    (List.replicate (2 ^ 31) (0 : Int)).length > INT32_MAX
    ∧ Encoder.encode (fun _ _ _ => 7) (Encoder.mk false Channels.Mono)
        (List.replicate (2 ^ 31) 0) [] = Except.ok 7
    ∧ Encoder.encode (fun _ frame_size _ => frame_size) (Encoder.mk false Channels.Mono)
        (List.replicate (2 ^ 31) 0) [] = Except.error (Error.Opus ErrorCode.Unknown)
    ∧ Encoder.encode (fun _ _ _ => 7) (Encoder.mk false Channels.Mono)
        (List.replicate (2 ^ 31) 0) [] ≠ Except.error Error.SignalsTooLarge := by
  refine ⟨?_, rfl, ?_, by intro h; cases h⟩
  · rw [List.length_replicate]
    norm_num [INT32_MAX]
  · unfold Encoder.encode
    simp only [List.length_replicate, usize_as_i32_pow31, Channels.to_i32,
      List.length_nil]
    norm_num [Int.tdiv_one, try_map_opus_error, Error.from_error_code,
      ErrorCode.from_i32, OPUS_BAD_ARG, OPUS_BUFFER_TOO_SMALL, OPUS_INTERNAL_ERROR,
      OPUS_INVALID_PACKET, OPUS_UNIMPLEMENTED, OPUS_INVALID_STATE, OPUS_ALLOC_FAIL,
      Except.map]

/-- Claim C1 amended: `Encoder::encode` / `encode_float` pass the raw slice
pointers and `as i32`-cast lengths straight to the native encode call with
no validated-buffer conversion; their result is always the native status
mapped through the taxonomy — `Ok` or `Error::Opus` — and never a local
validation error such as `SignalsTooLarge`. -/
theorem encode_no_local_validation {F : Type}
    (native : List Int → Int → Int → Int) (nativeF : List F → Int → Int → Int)
    (enc : Encoder) (input : List Int) (inputF : List F) (output : List Nat) :
    ((∃ n, Encoder.encode native enc input output = Except.ok n)
      ∨ (∃ c, Encoder.encode native enc input output = Except.error (Error.Opus c)))
    ∧ ((∃ n, Encoder.encode_float nativeF enc inputF output = Except.ok n)
      ∨ (∃ c, Encoder.encode_float nativeF enc inputF output
          = Except.error (Error.Opus c))) :=
  ⟨try_map_shape _, try_map_shape _⟩

/-- Claim C2 counterexample: when the native create call reports the
non-success status `-1` but hands back a non-null pointer, `Encoder::new`
and `Decoder::new` return `Ok` with a handle instead of the mapped `Err`
(the success check is an OR of the two conditions). -/
theorem coder_new_nonsuccess_cex :
    Encoder.new (CreateResult.mk false (-1)) SampleRate.Hz48000 Channels.Mono
        Application.Voip
      = Except.ok (Encoder.mk false Channels.Mono)
    ∧ Decoder.new (CreateResult.mk false (-1)) SampleRate.Hz48000 Channels.Mono
      = Except.ok (Decoder.mk false Channels.Mono)
    ∧ (-1 : Int) ≠ OPUS_OK :=
  ⟨rfl, rfl, by decide⟩

/-- Claim C2 amended: `Encoder::new` / `Decoder::new` fail atomically with
the mapped native error (and return no handle) exactly when the native
create call reports non-success AND returns a null pointer; whenever the
status is success or the pointer is non-null, a handle is returned (even
for a non-success status with a non-null pointer). -/
theorem coder_new_atomicity (r₁ r₂ : CreateResult) (sr : SampleRate)
    (ch : Channels) (mode : Application)
    (h1 : r₁.code ≠ OPUS_OK) (h2 : r₁.isNull = true)
    (h3 : r₂.code = OPUS_OK ∨ r₂.isNull = false) :
    Encoder.new r₁ sr ch mode = Except.error (Error.Opus (ErrorCode.from_i32 r₁.code))
    ∧ Decoder.new r₁ sr ch = Except.error (Error.Opus (ErrorCode.from_i32 r₁.code))
    ∧ Encoder.new r₂ sr ch mode = Except.ok (Encoder.mk r₂.isNull ch)
    ∧ Decoder.new r₂ sr ch = Except.ok (Decoder.mk r₂.isNull ch) := by
  refine ⟨?_, ?_, ?_, ?_⟩
  · unfold Encoder.new
    rw [if_neg (by simp [h1, h2])]
    rfl
  · unfold Decoder.new
    rw [if_neg (by simp [h1, h2])]
    rfl
  · unfold Encoder.new
    rw [if_pos h3]
  · unfold Decoder.new
    rw [if_pos h3]

theorem coder_new_atomicity_witness :
    Encoder.new (CreateResult.mk true (-1)) SampleRate.Hz48000 Channels.Stereo
        Application.Audio
      = Except.error (Error.Opus (ErrorCode.from_i32 (-1)))
    ∧ Encoder.new (CreateResult.mk false 0) SampleRate.Hz48000 Channels.Stereo
        Application.Audio
      = Except.ok (Encoder.mk false Channels.Stereo) := by
  have h := coder_new_atomicity (CreateResult.mk true (-1)) (CreateResult.mk false 0)
    SampleRate.Hz48000 Channels.Stereo Application.Audio (by decide) rfl (by decide)
  exact ⟨h.1, h.2.2.1⟩

/-- A concrete fresh encoder ctl state used to evaluate the toggles. -/
def encSt0 : EncCtlState := EncCtlState.mk false false false false false false

/-- A concrete fresh decoder ctl state used to evaluate the toggles. -/
def decSt0 : DecCtlState := DecCtlState.mk 0 false

/-- Claim C3 (evaluated at the failing input): every boolean toggle
round-trips — set `true` then get yields `Ok true`, set `false` then get
yields `Ok false` — for encoder inband FEC, VBR, VBR-constraint, DTX,
prediction-disabled and for the decoder's phase-inversion-disabled; but
the encoder's phase-inversion getter issues the SET opcode, so after a
successful `set_phase_inversion_disabled(true)` the getter (out-pointer
at address 1000) returns `Err(Opus(BadArgument))`, not `Ok(true)`. -/
theorem phase_inversion_toggle_eval :
    (Encoder.set_phase_inversion_disabled encSt0 true).2 = Except.ok ()
    ∧ (Encoder.set_phase_inversion_disabled encSt0 true).1.phaseInversionDisabled = true
    ∧ (Encoder.phase_inversion_disabled
        (Encoder.set_phase_inversion_disabled encSt0 true).1 1000).2
      = Except.error (Error.Opus ErrorCode.BadArgument)
    ∧ (Encoder.phase_inversion_disabled
        (Encoder.set_phase_inversion_disabled encSt0 true).1 1000).2
      ≠ Except.ok true
    ∧ (Encoder.inband_fec (Encoder.set_inband_fec encSt0 true).1 1000).2 = Except.ok true
    ∧ (Encoder.inband_fec (Encoder.set_inband_fec encSt0 false).1 1000).2 = Except.ok false
    ∧ (Encoder.vbr (Encoder.set_vbr encSt0 true).1 1000).2 = Except.ok true
    ∧ (Encoder.vbr (Encoder.set_vbr encSt0 false).1 1000).2 = Except.ok false
    ∧ (Encoder.vbr_constraint (Encoder.set_vbr_constraint encSt0 true).1 1000).2
      = Except.ok true
    ∧ (Encoder.vbr_constraint (Encoder.set_vbr_constraint encSt0 false).1 1000).2
      = Except.ok false
    ∧ (Encoder.dtx (Encoder.set_dtx encSt0 true).1 1000).2 = Except.ok true
    ∧ (Encoder.dtx (Encoder.set_dtx encSt0 false).1 1000).2 = Except.ok false
    ∧ (Encoder.prediction_disabled (Encoder.set_prediction_disabled encSt0 true).1 1000).2
      = Except.ok true
    ∧ (Encoder.prediction_disabled (Encoder.set_prediction_disabled encSt0 false).1 1000).2
      = Except.ok false
    ∧ (Decoder.phase_inversion_disabled
        (Decoder.set_phase_inversion_disabled decSt0 true).1 1000).2 = Except.ok true
    ∧ (Decoder.phase_inversion_disabled
        (Decoder.set_phase_inversion_disabled decSt0 false).1 1000).2 = Except.ok false := by
  refine ⟨rfl, rfl, rfl, ?_, rfl, rfl, rfl, rfl, rfl, rfl, rfl, rfl, rfl, rfl, rfl, rfl⟩
  intro h
  exact Except.noConfusion
    (show (Except.error (Error.Opus ErrorCode.BadArgument) : Except Error Bool)
      = Except.ok true from h)

/-- Claim C7: setting a gain in [-32768, 32767] succeeds and a subsequent
get returns exactly that gain; setting a gain outside the range fails with
`BadArgument`, leaves the state unchanged, and a subsequent get still
returns the previously set value. -/
theorem gain_round_trip (st : DecCtlState) (g₁ g₂ : Int) (addr : Nat)
    (h1 : -32768 ≤ g₁) (h2 : g₁ ≤ 32767) (h3 : g₂ < -32768 ∨ 32767 < g₂) :
    (Decoder.set_gain st g₁).2 = Except.ok ()
    ∧ (Decoder.set_gain st g₁).1 = DecCtlState.mk g₁ st.phaseInversionDisabled
    ∧ (Decoder.gain (Decoder.set_gain st g₁).1 addr).2 = Except.ok g₁
    ∧ (Decoder.set_gain st g₂).2 = Except.error (Error.Opus ErrorCode.BadArgument)
    ∧ (Decoder.set_gain st g₂).1 = st
    ∧ (Decoder.gain (Decoder.set_gain (Decoder.set_gain st g₁).1 g₂).1 addr).2
      = Except.ok g₁ := by
  have hset1 : Decoder.set_gain st g₁
      = (DecCtlState.mk g₁ st.phaseInversionDisabled, Except.ok ()) := by
    simp [Decoder.set_gain, set_decoder_ctl_request, opus_decoder_ctl, CtlArg.as_i32,
      try_map_opus_error, h1, h2, OPUS_SET_GAIN_REQUEST, OPUS_GET_GAIN_REQUEST, OPUS_OK]
  have hget : ∀ s : DecCtlState, Decoder.gain s addr = (s, Except.ok s.gain) := by
    intro s
    simp [Decoder.gain, decoder_ctl_request, opus_decoder_ctl, ctl_get_value,
      try_map_opus_error, OPUS_SET_GAIN_REQUEST, OPUS_GET_GAIN_REQUEST, OPUS_OK]
  have hset2 : ∀ s : DecCtlState, Decoder.set_gain s g₂
      = (s, Except.error (Error.Opus ErrorCode.BadArgument)) := by
    intro s
    have hc : ¬(-32768 ≤ g₂ ∧ g₂ ≤ 32767) := by omega
    simp [Decoder.set_gain, set_decoder_ctl_request, opus_decoder_ctl, CtlArg.as_i32,
      try_map_opus_error, hc, OPUS_SET_GAIN_REQUEST, OPUS_GET_GAIN_REQUEST,
      OPUS_BAD_ARG, Error.from_error_code, ErrorCode.from_i32]
  refine ⟨by rw [hset1], by rw [hset1], ?_, (hset2 st).symm ▸ rfl, ?_, ?_⟩
  · rw [hset1, hget]
  · rw [hset2]
  · rw [hset1, hset2, hget]

theorem gain_round_trip_witness :
    (Decoder.set_gain decSt0 5).2 = Except.ok ()
    ∧ (Decoder.gain (Decoder.set_gain decSt0 5).1 1000).2 = Except.ok 5
    ∧ (Decoder.set_gain decSt0 40000).2
      = Except.error (Error.Opus ErrorCode.BadArgument)
    ∧ (Decoder.gain (Decoder.set_gain (Decoder.set_gain decSt0 5).1 40000).1 1000).2
      = Except.ok 5 := by
  have h := gain_round_trip decSt0 5 40000 1000 (by decide) (by decide)
    (Or.inr (by decide))
  exact ⟨h.1, h.2.2.1, h.2.2.2.1, h.2.2.2.2.2⟩
